import Mathlib

/-!
Verification of the `ring-webrtc` WHEP gateway against its design spec.

The development shallowly embeds the parts of the code the claims are
about:

* the codec substitution and SDP-session handling of `WhepView.post`
  (`src/ring_webrtc/app.py`),
* the refresh body `update_devices` and its lock discipline
  (`src/ring_webrtc/app.py`),
* the lifecycle wrapper `cleanup_ctx` and the retry loop
  `periodic_updates` (`src/ring_webrtc/decorators.py`),
* the `TaskWaitGroup` utility (`src/ring_webrtc/helpers.py`).

Python strings are modelled as `List Char`, coroutine outcomes as
explicit sum types, and the event-loop behaviour of each background
task as a trace of the awaits/lock operations it performs.
-/

/-! ## Codec substitution (`app.py`, line 81)

`offer = (await self.request.text()).replace('H265', 'H264')`.

CPython `str.replace` scans left to right, replacing each
non-overlapping occurrence of the pattern.  `replaceH265` embeds that
scan on `List Char`. -/

def h265 : List Char := ['H', '2', '6', '5']

def h264 : List Char := ['H', '2', '6', '4']

/-- Embedding of `.replace('H265', 'H264')` from `app.py` line 81:
the left-to-right non-overlapping replacement scan of CPython
`str.replace`. -/
def replaceH265 (l : List Char) : List Char :=
  match l with
  | [] => []
  | c :: rest =>
    if h265.isPrefixOf (c :: rest) then
      h264 ++ replaceH265 (rest.drop 3)
    else
      c :: replaceH265 rest
termination_by l.length
decreasing_by all_goals (simp only [List.length_cons, List.length_drop]; omega)

/-- Follows the spec's words ("every occurrence of the token `H265`
replaced by `H264` and otherwise unchanged"): the decomposition of the
offer into the maximal pieces that lie between consecutive occurrences
of `H265`.  This is the spec-side definition to be compared with the
source-side `replaceH265`. -/
def splitOnH265 (l : List Char) : List (List Char) :=
  match l with
  | [] => [[]]
  | c :: rest =>
    if h265.isPrefixOf (c :: rest) then
      [] :: splitOnH265 (rest.drop 3)
    else
      match splitOnH265 rest with
      | [] => [[c]]
      | p :: ps => (c :: p) :: ps
termination_by l.length
decreasing_by all_goals (simp only [List.length_cons, List.length_drop]; omega)

/-- Join a list of pieces, inserting `sep` between consecutive pieces. -/
def joinWith (sep : List Char) : List (List Char) → List Char
  | [] => []
  | [p] => p
  | p :: q :: ps => p ++ sep ++ joinWith sep (q :: ps)

/-- `hasSub pat l` decides whether `pat` occurs as a contiguous
substring of `l` (for nonempty `pat`). -/
def hasSub (pat : List Char) : List Char → Bool
  | [] => pat.isEmpty
  | c :: rest => pat.isPrefixOf (c :: rest) || hasSub pat rest

theorem h265_pre_destruct {l : List Char} (h : h265.isPrefixOf l = true) :
    ∃ t, l = 'H' :: '2' :: '6' :: '5' :: t := by
  have h' : h265 <+: l := by simpa using h
  obtain ⟨t, ht⟩ := h'
  exact ⟨t, by rw [← ht]; rfl⟩

theorem splitOnH265_ne_nil (l : List Char) : splitOnH265 l ≠ [] := by
  rcases l with _ | ⟨c, rest⟩
  · rw [splitOnH265]; simp
  · rw [splitOnH265]
    split
    · simp
    · rcases hsplit : splitOnH265 rest with _ | ⟨q, qs⟩
      · exact absurd hsplit (splitOnH265_ne_nil rest)
      · show ((c :: q) :: qs) ≠ []
        simp
termination_by l.length
decreasing_by all_goals (simp only [List.length_cons]; omega)

theorem splitOnH265_head (l : List Char) :
    ∀ p ps, splitOnH265 l = p :: ps → p <+: l := by
  rcases l with _ | ⟨c, rest⟩
  · intro p ps h
    rw [splitOnH265] at h
    injection h with h1 _
    subst h1
    exact ⟨[], rfl⟩
  · intro p ps h
    rw [splitOnH265] at h
    split at h
    · injection h with h1 _
      subst h1
      exact ⟨c :: rest, rfl⟩
    · rcases hrest : splitOnH265 rest with _ | ⟨q, qs⟩
      · exact absurd hrest (splitOnH265_ne_nil rest)
      · rw [hrest] at h
        have h' : (c :: q) :: qs = p :: ps := h
        injection h' with h1 _
        subst h1
        obtain ⟨t, ht⟩ := splitOnH265_head rest q qs hrest
        exact ⟨t, by rw [List.cons_append, ht]⟩
termination_by l.length
decreasing_by all_goals (simp only [List.length_cons]; omega)

theorem joinWith_h265_splitOnH265 (l : List Char) :
    joinWith h265 (splitOnH265 l) = l := by
  rcases l with _ | ⟨c, rest⟩
  · rw [splitOnH265]; rfl
  · rw [splitOnH265]
    split
    · rename_i hpre
      have ih := joinWith_h265_splitOnH265 (rest.drop 3)
      rcases hsplit : splitOnH265 (rest.drop 3) with _ | ⟨q, qs⟩
      · exact absurd hsplit (splitOnH265_ne_nil _)
      · rw [hsplit] at ih
        rw [joinWith, ih]
        obtain ⟨t, ht⟩ := h265_pre_destruct hpre
        injection ht with hc hrest
        subst hc
        subst hrest
        rfl
    · have ih := joinWith_h265_splitOnH265 rest
      rcases hsplit : splitOnH265 rest with _ | ⟨q, qs⟩
      · exact absurd hsplit (splitOnH265_ne_nil rest)
      · rw [hsplit] at ih
        show joinWith h265 ((c :: q) :: qs) = c :: rest
        rcases qs with _ | ⟨q2, qs2⟩
        · rw [joinWith] at ih ⊢
          rw [ih]
        · rw [joinWith] at ih ⊢
          rw [List.cons_append, List.cons_append, ih]
termination_by l.length
decreasing_by all_goals (simp only [List.length_cons, List.length_drop]; omega)

theorem replaceH265_eq_joinWith (l : List Char) :
    replaceH265 l = joinWith h264 (splitOnH265 l) := by
  rcases l with _ | ⟨c, rest⟩
  · rw [replaceH265, splitOnH265]; rfl
  · rw [replaceH265, splitOnH265]
    split
    · have ih := replaceH265_eq_joinWith (rest.drop 3)
      rcases hsplit : splitOnH265 (rest.drop 3) with _ | ⟨q, qs⟩
      · exact absurd hsplit (splitOnH265_ne_nil _)
      · rw [hsplit] at ih
        rw [joinWith, ih]
        rfl
    · have ih := replaceH265_eq_joinWith rest
      rcases hsplit : splitOnH265 rest with _ | ⟨q, qs⟩
      · exact absurd hsplit (splitOnH265_ne_nil rest)
      · rw [hsplit] at ih
        show c :: replaceH265 rest = joinWith h264 ((c :: q) :: qs)
        rcases qs with _ | ⟨q2, qs2⟩
        · rw [joinWith] at ih ⊢
          rw [ih]
        · rw [joinWith] at ih ⊢
          rw [List.cons_append, List.cons_append, ih]
termination_by l.length
decreasing_by all_goals (simp only [List.length_cons, List.length_drop]; omega)

theorem splitOnH265_pieces_free (l : List Char) :
    ∀ p ∈ splitOnH265 l, hasSub h265 p = false := by
  rcases l with _ | ⟨c, rest⟩
  · intro p hp
    rw [splitOnH265] at hp
    simp at hp
    subst hp
    rfl
  · intro p hp
    rw [splitOnH265] at hp
    split at hp
    · rcases List.mem_cons.mp hp with h | h
      · subst h; rfl
      · exact splitOnH265_pieces_free (rest.drop 3) p h
    · rename_i hnpre
      rcases hsplit : splitOnH265 rest with _ | ⟨q, qs⟩
      · exact absurd hsplit (splitOnH265_ne_nil rest)
      · rw [hsplit] at hp
        have hp' : p ∈ (c :: q) :: qs := hp
        rcases List.mem_cons.mp hp' with h | h
        · subst h
          have hq : hasSub h265 q = false :=
            splitOnH265_pieces_free rest q
              (by rw [hsplit]; exact List.mem_cons_self q qs)
          rw [hasSub, hq, Bool.or_false]
          by_contra habs
          have hcq : h265.isPrefixOf (c :: q) = true := by
            cases hb : h265.isPrefixOf (c :: q)
            · exact absurd hb habs
            · rfl
          have hpq : h265 <+: (c :: q) := by simpa using hcq
          obtain ⟨t, ht⟩ := splitOnH265_head rest q qs hsplit
          have hqr : (c :: q) <+: (c :: rest) := ⟨t, by rw [List.cons_append, ht]⟩
          exact hnpre (by simpa using hpq.trans hqr)
        · have hmem : p ∈ splitOnH265 rest := by
            rw [hsplit]; exact List.mem_cons_of_mem q h
          exact splitOnH265_pieces_free rest p hmem
termination_by l.length
decreasing_by all_goals (simp only [List.length_cons, List.length_drop]; omega)

/-! ## Session adapter (`app.py`, classes `CameraDeviceView` / `WhepView`)

`WhepView.post` (lines 80-103):

```
offer = (await self.request.text()).replace('H265', 'H264')
session_id = RingWebRtcStream.get_sdp_session_id(offer)
assert session_id, 'Invalid SDP offer'
...
try:
    camera = await self.get_camera()
    answer = await camera.generate_webrtc_stream(offer, keep_alive_timeout=None)
    ...
    return web.Response(text=answer, status=201, headers=...)
except Exception:
    ...
    return web.Response(status=500, text='Failed to start WebRTC session')
```

The external collaborators (`RingWebRtcStream.get_sdp_session_id`, the
device registry contents and `generate_webrtc_stream`) are supplied as
an environment.  The `assert` sits before the `try`, so a falsy
session id raises an `AssertionError` that leaves the handler;
`get_camera` raises `RuntimeError` when no device matches, which the
`try` converts to a 500.  The optional monitoring-task registration
(lines 94-98) spawns a background watcher and does not change the
response or the argument passed to `generate_webrtc_stream`; it is not
part of this model. -/

structure Camera where
  device_id : String
deriving DecidableEq, Repr

/-- The result of one invocation of the `post` handler: either an HTTP
response (status, body, optional `Location` header) or an exception
that escaped the handler. -/
inductive PostResult where
  | response (status : Nat) (body : String) (location : Option String)
  | escaped (exc : String)
deriving DecidableEq, Repr

/-- The external collaborators of `WhepView.post`. -/
structure PostEnv where
  getSdpSessionId : List Char → Option String
  videoDevices : List Camera
  generate : Camera → List Char → Except String String

/-- `CameraDeviceView.get_camera` (app.py lines 66-76): the first
device of the registry whose `device_id` matches the path parameter
(`next((camera for camera in ... if camera.device_id == ...), None)`).
The `RuntimeError` it raises when no device matches is modelled as
`none` and converted by the caller's `try` block. -/
def get_camera (devices : List Camera) (device_id : String) : Option Camera :=
  devices.find? (fun c => c.device_id == device_id)

/-- `WhepView.post` (app.py lines 80-103).  Besides the result, the
model returns the list of `generate_webrtc_stream` invocations the
handler performed, each recorded as the camera and the offer text that
were passed. -/
def WhepView_post (env : PostEnv) (device_id : String) (body : List Char) :
    PostResult × List (Camera × List Char) :=
  let offer := replaceH265 body
  match env.getSdpSessionId offer with
  | none => (.escaped "AssertionError: Invalid SDP offer", [])
  | some session_id =>
    if session_id = "" then
      (.escaped "AssertionError: Invalid SDP offer", [])
    else
      match get_camera env.videoDevices device_id with
      | none => (.response 500 "Failed to start WebRTC session" none, [])
      | some camera =>
        match env.generate camera offer with
        | .error _ =>
          (.response 500 "Failed to start WebRTC session" none, [(camera, offer)])
        | .ok answer =>
          (.response 201 answer (some ("/" ++ device_id ++ "/whep/" ++ session_id)),
           [(camera, offer)])

/-- Whether a handler outcome is a 4xx response. -/
def isClientError : PostResult → Bool
  | .response s _ _ => 400 ≤ s && s < 500
  | .escaped _ => false

/-- Whether a handler outcome is a 2xx response. -/
def is2xx : PostResult → Bool
  | .response s _ _ => 200 ≤ s && s < 300
  | .escaped _ => false

/-- The device `"front-door"` used by the spec's examples. -/
def frontDoor : Camera := ⟨"front-door"⟩

/-- Environment for the happy-path example: the session id extractor
finds `"abc123"`, the registry holds `"front-door"`, and the external
client answers `"ANSWER"`. -/
def happyEnv : PostEnv where
  getSdpSessionId := fun _ => some "abc123"
  videoDevices := [frontDoor]
  generate := fun _ _ => .ok "ANSWER"

/-- Environment in which the session id cannot be extracted from any
offer. -/
def badSdpEnv : PostEnv where
  getSdpSessionId := fun _ => none
  videoDevices := [frontDoor]
  generate := fun _ _ => .ok "ANSWER"

/-- Environment with an empty device registry. -/
def emptyRegistryEnv : PostEnv where
  getSdpSessionId := fun _ => some "abc123"
  videoDevices := []
  generate := fun _ _ => .ok "ANSWER"

/-! ## Refresh body and lock discipline (`app.py`, `update_devices`, lines 46-50)

```
async def update_devices(app):
    async with app[RUNTIME_DATA].update_lock:
        _LOGGER.info('Updating Ring devices...')
        await ring.async_update_devices()
        _LOGGER.info('Ring devices updated')
```

The body is modelled as the sequence of operations it performs on the
event loop: entering/leaving the `async with` block on the registry
lock, logging, and the external "list devices" call
(`ring.async_update_devices()`). -/

inductive RefreshEv where
  | acquireLock
  | logInfo (msg : String)
  | listDevicesCall
  | releaseLock
deriving DecidableEq, Repr

/-- The operation trace of one execution of `update_devices`. -/
def update_devices_trace : List RefreshEv :=
  [RefreshEv.acquireLock,
   RefreshEv.logInfo "Updating Ring devices...",
   RefreshEv.listDevicesCall,
   RefreshEv.logInfo "Ring devices updated",
   RefreshEv.releaseLock]

/-- The registry lock is held while executing the event at index `i`
of a trace: the acquisitions strictly outnumber the releases among the
events that come before it. -/
def lockHeldAt (tr : List RefreshEv) (i : Nat) : Prop :=
  (tr.take i).count RefreshEv.releaseLock < (tr.take i).count RefreshEv.acquireLock

instance (tr : List RefreshEv) (i : Nat) : Decidable (lockHeldAt tr i) :=
  inferInstanceAs (Decidable (_ < _))

/-! ## Lifecycle binder (`decorators.py`, `cleanup_ctx`, lines 12-23)

```
task = asyncio.create_task(func(*args, **kwargs))
yield
task.cancel()
with suppress(asyncio.CancelledError):
    await task
```

The shutdown half (after the `yield`) calls `task.cancel()` and then
awaits the task with no timeout, suppressing only `CancelledError`.
`cleanup_ctx_shutdown` maps the behaviour the cancelled task exhibits
to the outcome of the shutdown step. -/

/-- How the spawned task reacts after `task.cancel()` is requested. -/
inductive TaskFate where
  | finishesCancelled
  | finishesNormally
  | finishesError (e : String)
  | neverFinishes
deriving DecidableEq, Repr

/-- Outcome of the shutdown half of the `cleanup_ctx` wrapper. -/
inductive ShutdownOutcome where
  | completed
  | raised (e : String)
  | hangsForever
deriving DecidableEq, Repr

/-- Shutdown half of `cleanup_ctx` (decorators.py lines 19-22): after
`task.cancel()`, `await task` is executed under
`suppress(asyncio.CancelledError)` with no timeout.  A task that ends
with `CancelledError` is suppressed; a task that ends with another
exception re-raises it; a task that never finishes leaves the `await`
suspended forever. -/
def cleanup_ctx_shutdown : TaskFate → ShutdownOutcome
  | .finishesCancelled => .completed
  | .finishesNormally => .completed
  | .finishesError e => .raised e
  | .neverFinishes => .hangsForever

/-- Whether the shutdown step surfaced an error. -/
def surfacedError : ShutdownOutcome → Bool
  | .raised _ => true
  | _ => false

/-! ## Refresh supervisor loop (`decorators.py`, `periodic_updates`, lines 38-49)

```
while True:
    try:
        await func(*args, **kwargs)
    except asyncio.CancelledError:
        raise
    except Exception:
        _LOGGER.exception(...)
        await asyncio.sleep(backoff)
    else:
        await asyncio.sleep(interval)
```

Each loop iteration awaits `func` and then one sleep.  A schedule
entry fixes what happens in one iteration: `func` succeeds or raises
an ordinary exception (and then the following sleep may be interrupted
by cancellation), or `func` itself is hit by `CancelledError`. -/

/-- One scheduled iteration of the `periodic_updates` loop. -/
inductive IterStep where
  | okThen (cancelledInSleep : Bool)
  | failThen (cancelledInSleep : Bool)
  | cancelInCall
deriving DecidableEq, Repr

/-- Awaits and other observable actions the loop performs. -/
inductive Ev where
  | call
  | logError
  | sleep (d : Nat)
  | sleepCancelled (d : Nat)
  | reraise
deriving DecidableEq, Repr

/-- A schedule entry that involves no cancellation. -/
def stepNoCancel : IterStep → Bool
  | .okThen c => !c
  | .failThen c => !c
  | .cancelInCall => false

/-- Execution of the `periodic_updates` loop under a schedule.  The
result is the trace of actions performed and whether the loop exited
by propagating `CancelledError` (`true`) or was still running when the
schedule ran out (`false`).  A `CancelledError` raised inside `func`
is caught and re-raised (lines 42-43); one raised inside either sleep
propagates out of the `try` statement, because `except` and `else`
blocks are not guarded by their own `try`. -/
def periodic_run (interval backoff : Nat) : List IterStep → List Ev × Bool
  | [] => ([], false)
  | IterStep.cancelInCall :: _ => ([Ev.call, Ev.reraise], true)
  | IterStep.okThen true :: _ => ([Ev.call, Ev.sleepCancelled interval], true)
  | IterStep.okThen false :: rest =>
    let r := periodic_run interval backoff rest
    (Ev.call :: Ev.sleep interval :: r.1, r.2)
  | IterStep.failThen true :: _ =>
    ([Ev.call, Ev.logError, Ev.sleepCancelled backoff], true)
  | IterStep.failThen false :: rest =>
    let r := periodic_run interval backoff rest
    (Ev.call :: Ev.logError :: Ev.sleep backoff :: r.1, r.2)

/-! ## Task group (`helpers.py`, class `TaskWaitGroup`)

Tasks and the group-task handle are identified by numbers; a
completion callback is identified by a number together with the flag
"raises an exception when invoked". -/

structure TaskWaitGroup where
  tasks : List Nat
  group_task : Option Nat
  done_callbacks : List (Nat × Bool)
deriving DecidableEq, Repr

/-- `TaskWaitGroup.add` (helpers.py lines 47-55): refuses while the
group task exists, otherwise inserts into the tracked set. -/
def TaskWaitGroup.add (g : TaskWaitGroup) (t : Nat) : Except String TaskWaitGroup :=
  if g.group_task.isSome then
    .error "Cannot add tasks to a running group."
  else
    .ok { g with tasks := if t ∈ g.tasks then g.tasks else g.tasks ++ [t] }

/-- `TaskWaitGroup.run` (helpers.py lines 67-81): if a group task
already exists it is returned unchanged; otherwise a fresh task
awaiting all tracked tasks is created and stored.  `fresh` names the
task `asyncio.create_task` would produce.  The third component records
whether a new group task was started by this call. -/
def TaskWaitGroup.run (g : TaskWaitGroup) (fresh : Nat) :
    TaskWaitGroup × Nat × Bool :=
  match g.group_task with
  | some t => (g, t, false)
  | none => ({ g with group_task := some fresh }, fresh, true)

/-- The `for callback in self._done_callbacks` loop of
`_on_group_done` (helpers.py lines 88-92): each callback is invoked in
order; a raising callback is caught by the per-callback
`try`/`except Exception`, which logs and lets the loop continue.
Returns the invoked callback ids and the error-log messages. -/
def runDoneCallbacks (invoked : List Nat) (logs : List String) :
    List (Nat × Bool) → List Nat × List String
  | [] => (invoked, logs)
  | (i, raises) :: rest =>
    if raises then
      runDoneCallbacks (invoked ++ [i]) (logs ++ ["Error in task group callback"]) rest
    else
      runDoneCallbacks (invoked ++ [i]) logs rest

/-- `TaskWaitGroup._on_group_done` (helpers.py lines 83-92): clears
the tracked set, resets the group-task slot, then runs every completion
callback.  It is attached to the group task via `add_done_callback`
in `run`, so it executes when awaiting the group task completes. -/
def TaskWaitGroup.on_group_done (g : TaskWaitGroup) :
    TaskWaitGroup × List Nat × List String :=
  ({ g with tasks := [], group_task := none },
   runDoneCallbacks [] [] g.done_callbacks)

/-! ## Helper lemmas -/

theorem WhepView_post_calls (env : PostEnv) (did : String) (body : List Char) :
    (WhepView_post env did body).2 = []
    ∨ ∃ cam, (WhepView_post env did body).2 = [(cam, replaceH265 body)] := by
  simp only [WhepView_post]
  split
  · left; rfl
  · split
    · left; rfl
    · split
      · left; rfl
      · split
        · right; exact ⟨_, rfl⟩
        · right; exact ⟨_, rfl⟩

theorem periodic_run_append (i b : Nat) (pre rest : List IterStep)
    (h : pre.all stepNoCancel = true) :
    periodic_run i b (pre ++ rest)
      = ((periodic_run i b pre).1 ++ (periodic_run i b rest).1,
         (periodic_run i b rest).2) := by
  induction pre with
  | nil => simp [periodic_run]
  | cons s pre ih =>
    rw [List.all_cons, Bool.and_eq_true] at h
    obtain ⟨hs, hpre⟩ := h
    cases s with
    | okThen c =>
      cases c
      · simp [periodic_run, ih hpre]
      · simp [stepNoCancel] at hs
    | failThen c =>
      cases c
      · simp [periodic_run, ih hpre]
      · simp [stepNoCancel] at hs
    | cancelInCall => simp [stepNoCancel] at hs

theorem periodic_run_failures (i b N : Nat) :
    periodic_run i b (List.replicate N (IterStep.failThen false))
      = ((List.replicate N [Ev.call, Ev.logError, Ev.sleep b]).flatten, false) := by
  induction N with
  | zero => simp [periodic_run]
  | succ n ih => simp [List.replicate_succ, periodic_run, ih]

theorem runDoneCallbacks_invokes (inv : List Nat) (logs : List String)
    (cbs : List (Nat × Bool)) :
    (runDoneCallbacks inv logs cbs).1 = inv ++ cbs.map Prod.fst := by
  induction cbs generalizing inv logs with
  | nil => simp [runDoneCallbacks]
  | cons cb rest ih =>
    obtain ⟨i, raises⟩ := cb
    cases raises <;> simp [runDoneCallbacks, ih]

/-! ## Claims -/

/-- C1 counterexample: a POST whose offer has no extractable session id
does not produce a 400-class response; the handler's result is an
`AssertionError` escaping the handler (app.py line 82, before the
`try`), which the claim excludes. -/
theorem whep_invalid_sdp_counterexample :
    isClientError (WhepView_post badSdpEnv "front-door" []).1 = false
    ∧ (WhepView_post badSdpEnv "front-door" []).1
        = PostResult.escaped "AssertionError: Invalid SDP offer" := by
  exact ⟨rfl, rfl⟩

/-- C1 (amended): if the session id extracted from the (already
codec-substituted) offer is absent or empty, `WhepView.post` raises an
`AssertionError` that escapes the handler — it neither returns a
400-class response nor invokes the external client. -/
theorem whep_invalid_sdp_theorem (env : PostEnv) (did : String) (body : List Char)
    (h : env.getSdpSessionId (replaceH265 body) = none
        ∨ env.getSdpSessionId (replaceH265 body) = some "") :
    WhepView_post env did body
      = (PostResult.escaped "AssertionError: Invalid SDP offer", []) := by
  simp only [WhepView_post]
  rcases h with h | h <;> (rw [h]; try simp)

/-- C1 witness: the amended statement at a concrete input. -/
theorem whep_invalid_sdp_witness :
    WhepView_post badSdpEnv "front-door" []
      = (PostResult.escaped "AssertionError: Invalid SDP offer", []) :=
  whep_invalid_sdp_theorem badSdpEnv "front-door" [] (Or.inl rfl)

/-- C2 counterexample: in `update_devices` the external "list devices"
call (index 2 of the trace) executes while the registry lock is held —
the claim says the lock is not held there. -/
theorem update_devices_lock_counterexample :
    update_devices_trace[2]? = some RefreshEv.listDevicesCall
    ∧ lockHeldAt update_devices_trace 2 := by
  exact ⟨rfl, by decide⟩

/-- C2 (amended): every execution of the external "list devices" call
in `update_devices` happens while holding the registry lock; the
`async with` block spans the whole external call, so request handlers
can block on the lock for its duration. -/
theorem update_devices_lock_theorem (i : Fin update_devices_trace.length)
    (h : update_devices_trace.get i = RefreshEv.listDevicesCall) :
    lockHeldAt update_devices_trace i.val := by
  revert i
  decide

/-- C2 witness: the amended statement at the index of the call. -/
theorem update_devices_lock_witness : lockHeldAt update_devices_trace 2 :=
  update_devices_lock_theorem ⟨2, by decide⟩ rfl

/-- C3 counterexample: when the cancelled supervisor task never
terminates, the shutdown step of `cleanup_ctx` stays suspended forever
(`await task` has no timeout) and surfaces no error — the claim says a
fatal error is surfaced within a bounded grace period. -/
theorem cleanup_ctx_counterexample :
    cleanup_ctx_shutdown TaskFate.neverFinishes = ShutdownOutcome.hangsForever
    ∧ surfacedError (cleanup_ctx_shutdown TaskFate.neverFinishes) = false := by
  exact ⟨rfl, rfl⟩

/-- C3 (amended): on server stop `cleanup_ctx` cancels the spawned
task and awaits its termination with no timeout: a task finishing with
`CancelledError` (or normally) completes the shutdown, another
exception propagates, and a task that never terminates blocks shutdown
indefinitely — there is no bounded grace period and no shutdown error
for that case. -/
theorem cleanup_ctx_theorem :
    cleanup_ctx_shutdown TaskFate.finishesCancelled = ShutdownOutcome.completed
    ∧ cleanup_ctx_shutdown TaskFate.finishesNormally = ShutdownOutcome.completed
    ∧ (∀ e, cleanup_ctx_shutdown (TaskFate.finishesError e) = ShutdownOutcome.raised e)
    ∧ cleanup_ctx_shutdown TaskFate.neverFinishes = ShutdownOutcome.hangsForever := by
  exact ⟨rfl, rfl, fun _ => rfl, rfl⟩

/-- C4: if the refreshed operation fails `N` consecutive times and
then succeeds, the `periodic_updates` loop performs exactly `N`
retries, each preceded by a logged error and a sleep of `backoff`
seconds, then after the success sleeps `interval` seconds and carries
on with the remaining schedule; moreover a schedule of failures alone
never makes the loop exit. -/
theorem periodic_updates_retries (i b N : Nat) (rest : List IterStep) :
    periodic_run i b
        (List.replicate N (IterStep.failThen false) ++ IterStep.okThen false :: rest)
      = ((List.replicate N [Ev.call, Ev.logError, Ev.sleep b]).flatten
          ++ Ev.call :: Ev.sleep i :: (periodic_run i b rest).1,
         (periodic_run i b rest).2)
    ∧ (periodic_run i b (List.replicate N (IterStep.failThen false))).2 = false := by
  have hall : (List.replicate N (IterStep.failThen false)).all stepNoCancel = true := by
    simp [List.all_eq_true, List.mem_replicate, stepNoCancel]
  constructor
  · rw [periodic_run_append i b _ _ hall, periodic_run_failures]
    simp [periodic_run]
  · rw [periodic_run_failures]

/-- C5: a `CancelledError` hitting the loop is re-raised rather than
treated as a retryable failure.  Cancellation during the awaited
function re-raises immediately; cancellation during the
interval-sleep or backoff-sleep exits the loop right there, with no
further refresh attempt: the remaining schedule is never executed. -/
theorem periodic_updates_cancellation (i b : Nat) (pre junk : List IterStep)
    (h : pre.all stepNoCancel = true) :
    periodic_run i b (pre ++ IterStep.cancelInCall :: junk)
        = ((periodic_run i b pre).1 ++ [Ev.call, Ev.reraise], true)
    ∧ periodic_run i b (pre ++ IterStep.okThen true :: junk)
        = ((periodic_run i b pre).1 ++ [Ev.call, Ev.sleepCancelled i], true)
    ∧ periodic_run i b (pre ++ IterStep.failThen true :: junk)
        = ((periodic_run i b pre).1
            ++ [Ev.call, Ev.logError, Ev.sleepCancelled b], true) := by
  refine ⟨?_, ?_, ?_⟩ <;>
    (rw [periodic_run_append i b _ _ h]; simp [periodic_run])

/-- C5 witness: the statement at a concrete schedule. -/
theorem periodic_updates_cancellation_witness :
    periodic_run 7 2 ([IterStep.failThen false] ++ IterStep.okThen true :: [])
      = ((periodic_run 7 2 [IterStep.failThen false]).1
          ++ [Ev.call, Ev.sleepCancelled 7], true) :=
  (periodic_updates_cancellation 7 2 [IterStep.failThen false] [] (by decide)).2.1

/-- C6: for a well-formed offer whose session id is `"abc123"` and a
registry that resolves device `"front-door"`, a successful external
generate-stream call makes the handler answer 201 with the external
client's answer as body and `Location: /front-door/whep/abc123`. -/
theorem whep_create_happy_path (env : PostEnv) (body : List Char) (cam : Camera)
    (answer : String)
    (hsid : env.getSdpSessionId (replaceH265 body) = some "abc123")
    (hcam : get_camera env.videoDevices "front-door" = some cam)
    (hgen : env.generate cam (replaceH265 body) = Except.ok answer) :
    (WhepView_post env "front-door" body).1
      = PostResult.response 201 answer (some "/front-door/whep/abc123") := by
  simp [WhepView_post, hsid, hcam, hgen]

/-- C6 witness: the statement at a concrete environment. -/
theorem whep_create_happy_path_witness :
    (WhepView_post happyEnv "front-door" []).1
      = PostResult.response 201 "ANSWER" (some "/front-door/whep/abc123") :=
  whep_create_happy_path happyEnv [] frontDoor "ANSWER" rfl
    (by simp [get_camera, happyEnv, frontDoor]) rfl

/-- C7: every offer text passed to the external generate-stream call
is `replaceH265` of the request body, and `replaceH265` is exactly
"every occurrence of `H265` replaced by `H264`, otherwise unchanged":
it equals the body's decomposition at all `H265` occurrences rejoined
with `H264`, where the decomposition is faithful (rejoined with `H265`
it restores the body) and its pieces contain no occurrence. -/
theorem whep_codec_substitution (env : PostEnv) (did : String) (body : List Char)
    (call : Camera × List Char) (hc : call ∈ (WhepView_post env did body).2) :
    call.2 = replaceH265 body
    ∧ replaceH265 body = joinWith h264 (splitOnH265 body)
    ∧ joinWith h265 (splitOnH265 body) = body
    ∧ ∀ p ∈ splitOnH265 body, hasSub h265 p = false := by
  refine ⟨?_, replaceH265_eq_joinWith body, joinWith_h265_splitOnH265 body,
    splitOnH265_pieces_free body⟩
  rcases WhepView_post_calls env did body with hnil | ⟨cam, hcalls⟩
  · rw [hnil] at hc
    simp at hc
  · rw [hcalls] at hc
    simp at hc
    subst hc
    rfl

/-- C7 witness: a concrete invocation recorded by the handler. -/
theorem whep_codec_substitution_witness :
    (frontDoor, replaceH265 []) ∈ (WhepView_post happyEnv "front-door" []).2
    ∧ (frontDoor, replaceH265 []).2 = replaceH265 [] := by
  have hm : (frontDoor, replaceH265 []) ∈ (WhepView_post happyEnv "front-door" []).2 := by
    simp [WhepView_post, happyEnv, get_camera, frontDoor]
  exact ⟨hm, (whep_codec_substitution happyEnv "front-door" [] _ hm).1⟩

/-- C8: a POST for a device id that matches nothing in the registry
(with a valid session id in the offer) yields a non-2xx response —
`get_camera`'s `RuntimeError` is converted to a 500 by the handler's
`try` — and the external generate-stream operation is never invoked. -/
theorem whep_unknown_device (env : PostEnv) (did : String) (body : List Char)
    (sid : String)
    (hsid : env.getSdpSessionId (replaceH265 body) = some sid)
    (hne : sid ≠ "")
    (hcam : get_camera env.videoDevices did = none) :
    is2xx (WhepView_post env did body).1 = false
    ∧ (WhepView_post env did body).2 = [] := by
  simp [WhepView_post, hsid, hne, hcam, is2xx]

/-- C8 witness: the statement at a concrete environment. -/
theorem whep_unknown_device_witness :
    is2xx (WhepView_post emptyRegistryEnv "missing-cam" []).1 = false
    ∧ (WhepView_post emptyRegistryEnv "missing-cam" []).2 = [] :=
  whep_unknown_device emptyRegistryEnv "missing-cam" [] "abc123" rfl (by decide) rfl

/-- C9: running the group and awaiting its completion (which fires
`_on_group_done`) leaves the tracked task count at zero and invokes
every registered completion callback exactly once, in registration
order, regardless of which callbacks raise — a raising callback's
exception is caught per-callback and cannot stop the others. -/
theorem taskWaitGroup_drain (g : TaskWaitGroup) (fresh : Nat) :
    ((g.run fresh).1.on_group_done).1.tasks.length = 0
    ∧ ((g.run fresh).1.on_group_done).2.1 = g.done_callbacks.map Prod.fst := by
  have hcb : (g.run fresh).1.done_callbacks = g.done_callbacks := by
    cases hg : g.group_task <;> simp [TaskWaitGroup.run, hg]
  constructor
  · simp [TaskWaitGroup.on_group_done]
  · simp [TaskWaitGroup.on_group_done, hcb, runDoneCallbacks_invokes]

/-- C10: calling `run` again on a group that already has a group task
returns the same handle as the first call, leaves the state unchanged,
and does not start a second concurrent execution of the tracked
tasks. -/
theorem taskWaitGroup_run_idempotent (g : TaskWaitGroup) (f f2 : Nat) :
    ((g.run f).1.run f2).2.1 = (g.run f).2.1
    ∧ ((g.run f).1.run f2).1 = (g.run f).1
    ∧ ((g.run f).1.run f2).2.2 = false := by
  cases hg : g.group_task <;> simp [TaskWaitGroup.run, hg]
